import Mathlib

/-!
Verification of the pqxx field layer (src/include/pqxx/field.hxx).

A `field` is a lightweight (result, row, column) reference into an immutable
query-result buffer.  Each cell is either the SQL null marker or a
zero-terminated byte string owned by the result.  We embed the cell model,
the typed-extraction family (`to`, `as`, default-valued variants, `get`),
the free `from_string` overloads on fields, equality, and the stream
adapter `field_streambuf`, and prove the specified contracts about them.
-/

namespace Pqxx

/-- Errors of the conversion engine (spec section 7): `conversion` is a plain
ConversionError (malformed text for the requested type), `nullConversion` is
the NullConversionError thrown by `internal::throw_null_conversion` when a
null field is extracted into a type with no null representation. -/
inductive ConvError where
  | conversion : String → ConvError
  | nullConversion : String → ConvError
deriving DecidableEq, Repr

/-- Modelled from the spec: ConversionPolicy for a target type `T`
(the conversion engine lives in pqxx/strconv.hxx, which is not in src).
`parse` is `from_string` on the raw text (rejecting malformed input with a
ConversionError); `nullRep` is `nullness<T>::null()` when
`nullness<T>::has_null`, `none` when the type has no null representation;
`defaultVal` models the value produced by default construction `T obj;`;
`tyName` is `type_name<T>`. -/
structure Traits (T : Type) where
  parse : String → Except ConvError T
  nullRep : Option T
  defaultVal : T
  tyName : String

/-- A query result: the immutable buffer of rows, each row a sequence of
cells, each cell either the null marker (`none`) or its raw byte content. -/
structure result where
  rows : List (List (Option String))
deriving DecidableEq

/-- pqxx::field (field.hxx lines 32-223): a reference to one cell, holding
a shared reference to the result plus row and column indices. -/
structure field where
  m_home : result
  m_row : Nat
  m_col : Nat
deriving DecidableEq

/-- The empty string (content of a null cell as exposed by `c_str`). -/
def emptyStr : String := ""

/-- The raw cell addressed by this field: `none` is the null marker. -/
def field.cell (f : field) : Option String :=
  List.getD (List.getD f.m_home.rows f.m_row []) f.m_col none

/-- Modelled from the spec: `field::is_null` (declared field.hxx line 116,
defined in field.cxx which is not in src) — true iff the cell's raw storage
is the null marker. -/
def field.is_null (f : field) : Bool := f.cell.isNone

/-- Modelled from the spec: `field::c_str` (declared field.hxx line 113,
defined in field.cxx which is not in src) — the zero-terminated raw content;
a null cell yields the empty string. -/
def field.c_str (f : field) : String := Option.getD f.cell emptyStr

/-- Modelled from the spec: `field::size` (declared field.hxx line 119,
defined in field.cxx which is not in src) — byte length of the raw content,
0 for null fields. -/
def field.size (f : field) : Nat := f.c_str.length

/-- field::view (field.hxx lines 102-105): `string_view(c_str(), size())`,
i.e. the first `size()` bytes of the zero-terminated content. -/
def field.view (f : field) : String := String.take f.c_str f.size

/-- field::to (field.hxx lines 125-135): read the value into `obj`.
`auto const bytes. c_str()`; if `bytes[0] == 0` and `is_null()` return
false leaving `obj` untouched, else `from_string(bytes, obj)` (which throws
ConversionError on malformed text) and return true.  The returned pair is
(the bool result, the final value of `obj`). -/
def field.to {T : Type} (f : field) (tr : Traits T) (obj : T) :
    Except ConvError (Bool × T) :=
  let bytes := f.c_str
  if bytes.isEmpty && f.is_null then Except.ok (false, obj)
  else (tr.parse bytes).map (fun v => (true, v))

/-- field::to with default (field.hxx lines 144-153):
`bool const has_value = to(obj); if (not has_value) obj = default_value;
return has_value;`. -/
def field.toDef {T : Type} (f : field) (tr : Traits T) (obj d : T) :
    Except ConvError (Bool × T) := do
  let r ← f.to tr obj
  if r.1 then pure r else pure (false, d)

/-- field::as with default (field.hxx lines 159-164):
`T obj; to(obj, default_value); return obj;`. -/
def field.asDef {T : Type} (f : field) (tr : Traits T) (d : T) :
    Except ConvError T := do
  let r ← f.toDef tr tr.defaultVal d
  pure r.2

/-- field::as (field.hxx lines 172-183): `T obj; if (not to(obj))` then
write `nullness<T>::null()` into obj when `nullness<T>::has_null`, else
`internal::throw_null_conversion(type_name<T>)`; `return obj;`. -/
def field.as {T : Type} (f : field) (tr : Traits T) : Except ConvError T := do
  let r ← f.to tr tr.defaultVal
  if r.1 then pure r.2
  else
    match tr.nullRep with
    | some n => pure n
    | none => Except.error (ConvError.nullConversion tr.tyName)

/-- Modelled from the spec: the conversion policy of an optional-wrapped
type (spec section 4.2: optional-wrapped versions of any supported type are
supported, with null mapping to the no-value state; pqxx/strconv.hxx is not
in src).  Parsing wraps the inner parse in `some`; the null representation
is the empty optional; default construction yields the empty optional. -/
def optTraits {T : Type} (tr : Traits T) : Traits (Option T) where
  parse s := (tr.parse s).map some
  nullRep := some none
  defaultVal := none
  tyName := tr.tyName

/-- field::get (field.hxx lines 189-193): `return as<O<T>>();` with the
container `O` defaulting to `std::optional`. -/
def field.get {T : Type} (f : field) (tr : Traits T) :
    Except ConvError (Option T) :=
  f.as (optTraits tr)

/-- from_string on a field (field.hxx lines 357-370): if the field is null,
return `nullness<T>::null()` when it exists, else throw the null-conversion
error; otherwise `from_string<T>(value.view())`. -/
def from_string_field {T : Type} (tr : Traits T) (f : field) :
    Except ConvError T :=
  if f.is_null then
    match tr.nullRep with
    | some n => Except.ok n
    | none => Except.error (ConvError.nullConversion tr.tyName)
  else tr.parse f.view

/-- The message of the conversion_error thrown by
`from_string<std::nullptr_t>` (field.hxx line 385). -/
def nullptrErrMsg : String := "Extracting non-null field into nullptr_t variable."

/-- from_string into nullptr_t (field.hxx lines 380-387): throws
conversion_error when the field is not null, else returns nullptr
(modelled as the unit value). -/
def from_string_nullptr (f : field) : Except ConvError Unit :=
  if !f.is_null then Except.error (ConvError.conversion nullptrErrMsg)
  else Except.ok ()

/-- Error message of the modelled integer parse. -/
def badIntMsg : String := "Malformed integer value."

/-- Accumulate decimal digits; fails on any non-digit character
(any unconsumed trailing character is an error, spec section 4.2). -/
def parseDigits : List Char → Nat → Option Nat
  | [], acc => some acc
  | c :: rest, acc =>
    if '0' ≤ c ∧ c ≤ '9' then parseDigits rest (acc * 10 + (c.toNat - 48))
    else none

/-- Modelled from the spec: the conversion engine's integer parse (spec
section 4.2; pqxx/strconv.hxx is not in src): an optional leading minus
sign followed by at least one decimal digit; empty input, a bare sign, or
any trailing non-digit character is a ConversionError. -/
def parseIntText (s : String) : Except ConvError Int :=
  match s.toList with
  | [] => Except.error (ConvError.conversion badIntMsg)
  | c :: rest =>
    if c = '-' then
      match rest with
      | [] => Except.error (ConvError.conversion badIntMsg)
      | d :: ds =>
        match parseDigits (d :: ds) 0 with
        | some n => Except.ok (-(n : Int))
        | none => Except.error (ConvError.conversion badIntMsg)
    else
      match parseDigits (c :: rest) 0 with
      | some n => Except.ok (n : Int)
      | none => Except.error (ConvError.conversion badIntMsg)

/-- The name `type_name<int>`. -/
def intName : String := "int"

/-- Conversion policy for int: integer parse, no null representation
(`nullness` of a plain arithmetic type has no null), default construction
modelled as 0. -/
def intTraits : Traits Int where
  parse := parseIntText
  nullRep := none
  defaultVal := 0
  tyName := intName

/-- The name `type_name` of std::string. -/
def strName : String := "string"

/-- Conversion policy for the pass-through string type: parsing copies the
text verbatim and never fails; strings have no null representation. -/
def strTraits : Traits String where
  parse s := Except.ok s
  nullRep := none
  defaultVal := emptyStr
  tyName := strName

/-- Modelled from the spec: `field::operator==` (declared field.hxx line 67,
defined in field.cxx which is not in src) — byte-for-byte comparison of raw
content, with all null fields considered equal to each other and a null
field never equal to a non-null field. -/
def field.beq (a b : field) : Bool :=
  match a.cell, b.cell with
  | none, none => true
  | some x, some y => x == y
  | _, _ => false

/-- field::operator!= (field.hxx lines 72-75): `return not operator==(rhs);`. -/
def field.bne (a b : field) : Bool := !(a.beq b)

/-- The failure sentinel `traits_type::eof()` for the char instantiation
of the stream adapter: -1. -/
def eofInt : Int := -1

/-- field_streambuf state (field.hxx lines 251-288), char instantiation:
the get area set by `initialize()` — `eback`, `gptr`, `egptr` as offsets
into the field's content `buf`. -/
structure field_streambuf where
  buf : String
  eback : Nat
  gptr : Nat
  egptr : Nat
deriving DecidableEq

/-- Construction over a field (field.hxx lines 263 and 282-287):
`setg(g, g, g + m_field.size())` over `m_field.c_str()`. -/
def field_streambuf.ofField (f : field) : field_streambuf :=
  { buf := f.c_str, eback := 0, gptr := 0, egptr := f.size }

/-- field_streambuf::sync (field.hxx line 266): `return traits_type::eof();`
leaving the adapter state unchanged. -/
def field_streambuf.sync (sb : field_streambuf) : Int × field_streambuf :=
  (eofInt, sb)

/-- field_streambuf::seekoff (field.hxx lines 268-271): returns eof and
ignores its arguments (the seekdir and openmode arguments are opaque tags),
leaving the adapter state unchanged. -/
def field_streambuf.seekoff (sb : field_streambuf) (_off : Int)
    (_dir _mode : Nat) : Int × field_streambuf :=
  (eofInt, sb)

/-- field_streambuf::seekpos (field.hxx lines 272-275): returns eof,
leaving the adapter state unchanged. -/
def field_streambuf.seekpos (sb : field_streambuf) (_pos : Int)
    (_mode : Nat) : Int × field_streambuf :=
  (eofInt, sb)

/-- field_streambuf::overflow (field.hxx line 276): the write entry point
returns eof without consuming the character or touching the state. -/
def field_streambuf.overflow (sb : field_streambuf) (_c : Int) :
    Int × field_streambuf :=
  (eofInt, sb)

/-- field_streambuf::underflow (field.hxx line 277): returns eof (the get
area set at construction is never refilled). -/
def field_streambuf.underflow (sb : field_streambuf) :
    Int × field_streambuf :=
  (eofInt, sb)

/-- A one-cell result whose only cell is null. -/
def resNull : result := { rows := [[none]] }

/-- A field referencing the null cell of `resNull`. -/
def fNull : field := { m_home := resNull, m_row := 0, m_col := 0 }

/-- The text of a second, non-null cell. -/
def strFour : String := "4"

/-- A two-cell result whose second cell is null. -/
def resNull2 : result := { rows := [[some strFour, none]] }

/-- A field referencing the null cell of `resNull2` (a null field over a
different result than `fNull`). -/
def fNull2 : field := { m_home := resNull2, m_row := 0, m_col := 1 }

/-- Malformed integer text: trailing garbage after the digits. -/
def str42x : String := "42x"

/-- A one-cell result holding the malformed text `str42x`. -/
def res42x : result := { rows := [[some str42x]] }

/-- A field referencing the `str42x` cell. -/
def f42x : field := { m_home := res42x, m_row := 0, m_col := 0 }

/-- A second field constructed over the same result, row and column as
`f42x`. -/
def f42xCopy : field := { m_home := res42x, m_row := 0, m_col := 0 }

/-- A one-cell result holding a genuinely empty, non-null string. -/
def resEmptyCell : result := { rows := [[some emptyStr]] }

/-- A field referencing the empty-string cell. -/
def fEmpty : field := { m_home := resEmptyCell, m_row := 0, m_col := 0 }

/-- A null field exposes empty content through `c_str`. -/
theorem c_str_of_null {f : field} (h : f.cell = none) : f.c_str = emptyStr := by
  simp [field.c_str, h]

/-- Characterization of `field.to`: a null field yields `(false, obj)` with
the target untouched; a non-null field parses the raw bytes, propagating
any conversion error and yielding `(true, value)` on success. -/
theorem to_spec {T : Type} (tr : Traits T) (f : field) (obj : T) :
    f.to tr obj =
      if f.is_null then Except.ok (false, obj)
      else (tr.parse f.c_str).map (fun v => (true, v)) := by
  have he : emptyStr.isEmpty = true := rfl
  cases h : f.cell with
  | none => simp [field.to, field.c_str, field.is_null, h, he]
  | some s => simp [field.to, field.c_str, field.is_null, h]

/-- Characterization of `field.toDef`: a null field yields `(false, d)`
(the default written into the target); a non-null field behaves like
`field.to`. -/
theorem toDef_spec {T : Type} (tr : Traits T) (f : field) (obj d : T) :
    f.toDef tr obj d =
      if f.is_null then Except.ok (false, d)
      else (tr.parse f.c_str).map (fun v => (true, v)) := by
  unfold field.toDef
  rw [to_spec]
  cases h : f.is_null with
  | true => rfl
  | false =>
    cases hp : tr.parse f.c_str with
    | error e => simp only [if_neg, Bool.false_eq_true, ite_false, hp]; rfl
    | ok v => simp only [Bool.false_eq_true, ite_false, hp]; rfl

/-- Characterization of `field.as`: a null field yields the type's null
representation when it has one and the null-conversion error otherwise; a
non-null field yields exactly the parse outcome. -/
theorem as_spec {T : Type} (tr : Traits T) (f : field) :
    f.as tr =
      if f.is_null then
        (match tr.nullRep with
         | some n => Except.ok n
         | none => Except.error (ConvError.nullConversion tr.tyName))
      else tr.parse f.c_str := by
  unfold field.as
  rw [to_spec]
  cases h : f.is_null with
  | true => cases tr.nullRep <;> rfl
  | false =>
    cases hp : tr.parse f.c_str with
    | error e => simp only [Bool.false_eq_true, ite_false, hp]; rfl
    | ok v => simp only [Bool.false_eq_true, ite_false, hp]; rfl

/-- Characterization of `field.asDef`: a null field yields the supplied
default; a non-null field yields exactly the parse outcome. -/
theorem asDef_spec {T : Type} (tr : Traits T) (f : field) (d : T) :
    f.asDef tr d =
      if f.is_null then Except.ok d
      else tr.parse f.c_str := by
  unfold field.asDef
  rw [toDef_spec]
  cases h : f.is_null with
  | true => rfl
  | false =>
    cases hp : tr.parse f.c_str with
    | error e => simp only [Bool.false_eq_true, ite_false, hp]; rfl
    | ok v => simp only [Bool.false_eq_true, ite_false, hp]; rfl

/-- The view of a field — the first `size()` bytes of the zero-terminated
content — is the whole content. -/
theorem view_eq_c_str (f : field) : f.view = f.c_str := by
  unfold field.view field.size
  rw [String.take_eq, String.length, List.take_length]

/-- C1 counterexample: the optional-int type has a null representation (the
empty optional) and the field is null, yet `to` leaves the target untouched
(a pre-existing value `some 5` survives) and returns false — it does not
write the null representation and report success as claimed. -/
theorem to_null_counterexample :
    (optTraits intTraits).nullRep = some none ∧
    fNull.is_null = true ∧
    fNull.to (optTraits intTraits) (some 5) = Except.ok (false, some 5) ∧
    fNull.to (optTraits intTraits) (some 5) ≠
      Except.ok (true, (none : Option Int)) := by
  refine ⟨rfl, rfl, rfl, ?_⟩
  intro h
  have h2 : ((false, some 5) : Bool × Option Int) = (true, none) :=
    Except.ok.inj h
  simp at h2

/-- C1 (amended): for every field and every target type, `to` on a null
field leaves the target untouched and returns false — regardless of whether
the type has a native null representation; on a non-null field the raw
bytes are parsed into the target and true is returned (a parse failure
propagating as a ConversionError). -/
theorem to_null_leaves_target_untouched {T : Type} (tr : Traits T)
    (f : field) (obj : T) :
    f.to tr obj =
      if f.is_null then Except.ok (false, obj)
      else (tr.parse f.c_str).map (fun v => (true, v)) :=
  to_spec tr f obj

/-- C2: `as` returns the type's null representation on a null field when
the type has one, fails with the null-conversion error on a null field when
it has none, and returns the parse outcome on a non-null field; `get` is
`as` at the optional-wrapped type and therefore yields the empty optional,
without error, on a null field. -/
theorem as_null_policy {T : Type} (tr : Traits T) (f : field) :
    (f.as tr =
      if f.is_null then
        (match tr.nullRep with
         | some n => Except.ok n
         | none => Except.error (ConvError.nullConversion tr.tyName))
      else tr.parse f.c_str) ∧
    f.get tr = f.as (optTraits tr) ∧
    (f.is_null = true → f.get tr = Except.ok none) := by
  refine ⟨as_spec tr f, rfl, ?_⟩
  intro h
  have hx := as_spec (optTraits tr) f
  rw [h] at hx
  simpa [field.get, optTraits] using hx

/-- C2 witness: on the concrete null field, `get` at int yields the empty
optional without error. -/
theorem as_null_policy_witness : fNull.get intTraits = Except.ok none :=
  (as_null_policy intTraits fNull).2.2 rfl

/-- C3: `to` with a default value behaves like `to` except that on a null
field it writes the default into the target and returns false; on a
non-null field it writes the parsed value and returns true. -/
theorem toDef_writes_default_on_null {T : Type} (tr : Traits T) (f : field)
    (obj d : T) :
    f.toDef tr obj d =
      if f.is_null then Except.ok (false, d)
      else (tr.parse f.c_str).map (fun v => (true, v)) :=
  toDef_spec tr f obj d

/-- C4: `as` with a default value returns the default when the field is
null and otherwise the value parsed from the raw bytes. -/
theorem asDef_returns_default_on_null {T : Type} (tr : Traits T) (f : field)
    (d : T) :
    f.asDef tr d = if f.is_null then Except.ok d else tr.parse f.c_str :=
  asDef_spec tr f d

/-- C5: on a non-null field whose text is malformed for the requested type,
both non-throwing entry points (`to` leaving the target untouched and `to`
with a default) still fail with the ConversionError instead of returning
false or the default — nullness is the only condition they absorb. -/
theorem to_propagates_conversion_error {T : Type} (tr : Traits T)
    (f : field) (obj d : T) (e : ConvError)
    (h : f.is_null = false) (hp : tr.parse f.c_str = Except.error e) :
    f.to tr obj = Except.error e ∧ f.toDef tr obj d = Except.error e := by
  rw [to_spec, toDef_spec, h, hp]
  exact ⟨rfl, rfl⟩

/-- C5 witness: the non-null malformed cell holding the text of `str42x`
makes both entry points fail with the integer conversion error. -/
theorem to_propagates_conversion_error_witness :
    f42x.to intTraits 0 = Except.error (ConvError.conversion badIntMsg) ∧
    f42x.toDef intTraits 0 7 =
      Except.error (ConvError.conversion badIntMsg) :=
  to_propagates_conversion_error intTraits f42x 0 7
    (ConvError.conversion badIntMsg) rfl rfl

/-- C6: on every stream adapter over a field, both seek operations, the
write operation (overflow) and sync return the failure sentinel eof and
leave the whole adapter state — read position and underlying bytes —
unchanged; the adapter constructed over a field reads exactly the field's
bytes from position 0 to the field's size. -/
theorem streambuf_seek_write_fail (f : field) (sb : field_streambuf)
    (off pos c : Int) (dir mode : Nat) :
    field_streambuf.ofField f =
      { buf := f.c_str, eback := 0, gptr := 0, egptr := f.size } ∧
    sb.sync = (eofInt, sb) ∧
    sb.seekoff off dir mode = (eofInt, sb) ∧
    sb.seekpos pos mode = (eofInt, sb) ∧
    sb.overflow c = (eofInt, sb) :=
  ⟨rfl, rfl, rfl, rfl, rfl⟩

/-- C7: field equality is byte-for-byte comparison of raw content with all
nulls equal: two null fields are equal regardless of the results they come
from, a null field never equals a non-null field, two non-null fields are
equal exactly when their bytes agree, two fields constructed over the same
result, row and column are always equal, and `operator` not-equal is
exactly the negation of equality. -/
theorem field_eq_rules (a b : field) :
    (a.is_null = true → b.is_null = true → a.beq b = true) ∧
    (a.is_null = true → b.is_null = false → a.beq b = false) ∧
    (a.is_null = false → b.is_null = true → a.beq b = false) ∧
    (a.is_null = false → b.is_null = false →
      (a.beq b = true ↔ a.c_str = b.c_str)) ∧
    (a.m_home = b.m_home → a.m_row = b.m_row → a.m_col = b.m_col →
      a.beq b = true) ∧
    a.bne b = !(a.beq b) := by
  refine ⟨?_, ?_, ?_, ?_, ?_, rfl⟩
  · intro ha hb
    rw [field.is_null, Option.isNone_iff_eq_none] at ha hb
    simp [field.beq, ha, hb]
  · intro ha hb
    rw [field.is_null, Option.isNone_iff_eq_none] at ha
    cases hc : b.cell with
    | none => rw [field.is_null, hc] at hb; simp at hb
    | some s => simp [field.beq, ha, hc]
  · intro ha hb
    rw [field.is_null, Option.isNone_iff_eq_none] at hb
    cases hc : a.cell with
    | none => rw [field.is_null, hc] at ha; simp at ha
    | some s => simp [field.beq, hc, hb]
  · intro ha hb
    cases hca : a.cell with
    | none => rw [field.is_null, hca] at ha; simp at ha
    | some x =>
      cases hcb : b.cell with
      | none => rw [field.is_null, hcb] at hb; simp at hb
      | some y => simp [field.beq, field.c_str, hca, hcb]
  · intro h1 h2 h3
    have hc : a.cell = b.cell := by
      unfold field.cell
      rw [h1, h2, h3]
    unfold field.beq
    rw [hc]
    cases hcb : b.cell with
    | none => rfl
    | some s => simp

/-- C7 witness: the two concrete null fields (over different results)
compare equal, a null field does not equal a non-null field, and two fields
constructed over the same result, row and column compare equal. -/
theorem field_eq_rules_witness :
    fNull.beq fNull2 = true ∧ fNull.beq f42x = false ∧
    f42x.beq f42xCopy = true :=
  ⟨(field_eq_rules fNull fNull2).1 rfl rfl,
    (field_eq_rules fNull f42x).2.1 rfl rfl,
    (field_eq_rules f42x f42xCopy).2.2.2.2.1 rfl rfl rfl⟩

/-- C8: a genuinely empty non-null string is never treated as null:
`is_null` is false and `to` attempts the conversion of the empty text
instead of taking the null path. -/
theorem empty_string_not_null {T : Type} (tr : Traits T) (f : field)
    (obj : T) (h : f.cell = some emptyStr) :
    f.is_null = false ∧
    f.to tr obj = (tr.parse emptyStr).map (fun v => (true, v)) := by
  have hn : f.is_null = false := by simp [field.is_null, h]
  refine ⟨hn, ?_⟩
  rw [to_spec, hn]
  simp [field.c_str, h]

/-- C8 witness: the concrete empty-string cell is not null and converts its
(empty) text through the string policy, succeeding with the empty string. -/
theorem empty_string_not_null_witness :
    fEmpty.is_null = false ∧
    fEmpty.to strTraits emptyStr =
      (strTraits.parse emptyStr).map (fun v => (true, v)) :=
  empty_string_not_null strTraits fEmpty emptyStr rfl

/-- C9: `from_string` into nullptr_t returns nullptr on every null field
and throws conversion_error on every non-null field. -/
theorem from_string_nullptr_spec (f : field) :
    from_string_nullptr f =
      if f.is_null then Except.ok ()
      else Except.error (ConvError.conversion nullptrErrMsg) := by
  unfold from_string_nullptr
  cases h : f.is_null <;> rfl

/-- C10: the free `from_string` on a field is equivalent to the member
accessor `as`: the same parsed value on non-null fields, the same null
representation on null fields of types that have one, and the same
null-conversion error on null fields of types that have none. -/
theorem from_string_field_equiv_as {T : Type} (tr : Traits T) (f : field) :
    from_string_field tr f = f.as tr := by
  rw [as_spec]
  unfold from_string_field
  rw [view_eq_c_str]

end Pqxx
